import Mathlib

/-!
# TinyMPC boundary adapter and hovering example

A shallow embedding of `src/tinympc/tiny_wrapper.cpp` (the `extern "C"` entry points
`set_x0`, `set_xref`, `reset_dual_variables`, `call_tiny_solve`, `get_x`, `get_u`, `edit_x`)
and of the control loop of `examples/example_quadrotor_hovering.cpp`.

Modelling conventions.

* `tinytype` is an arbitrary carrier `α`.  The wrapper only copies values and writes the
  constant zero, so nothing but `Zero α` is needed for it; no algebraic law of floating point
  arithmetic is assumed anywhere.
* A fixed-size Eigen matrix with `r` rows and `c` columns is a function `Fin r → Fin c → α`
  giving its coefficients, `M(i, j)` being `M i j`.
* The process-wide object `tiny_data_solver` becomes an explicit `TinySolver` value that every
  entry point receives and returns.
* A `float *` argument is the memory seen through the pointer, a function `Nat → α` from
  offsets to values.  The caller's buffer is taken to be disjoint from the solver's storage.
* Text written to standard output is returned as a list of `Printed` items.
* `tiny_solve` (declared in `tinympc/admm.hpp`) is a parameter: a function on solver states.
* The dimensions `NSTATES`, `NINPUTS`, `NHORIZON` (from `glob_opts.hpp`) and the storage order
  of the typedefs `tiny_MatrixNxNh`, `tiny_MatrixNuNhm1` (from `types.hpp`) are collected in
  `GlobOpts` and stay symbolic.
-/

namespace TinyMPC

/-! ## Configuration and data model -/

/-- Storage order option of an Eigen matrix type.  `ColMajor` is what Eigen uses when a
`Matrix<...>` type names no option. -/
inductive StorageOrder where
  | ColMajor
  | RowMajor
  deriving DecidableEq, Repr

/-- Compile-time configuration: the three dimensions and the storage order of the two
trajectory typedefs.  `tiny_MatrixNuNhm1` has `NHORIZON - 1` columns, a fixed size only when
`NHORIZON` is positive. -/
structure GlobOpts where
  NSTATES : Nat
  NINPUTS : Nat
  NHORIZON : Nat
  horizon_pos : 0 < NHORIZON
  orderNxNh : StorageOrder
  orderNuNhm1 : StorageOrder

/-- Coefficients of a fixed-size matrix. -/
abbrev Mat (α : Type) (r c : Nat) : Type := Fin r → Fin c → α

/-- Coefficients of a fixed-size column vector. -/
abbrev Vec (α : Type) (r : Nat) : Type := Fin r → α

/-- Memory seen through a `float *`. -/
abbrev Buffer (α : Type) : Type := Nat → α

/-- The fields of `TinyCache` that the example fills in. -/
structure TinyCache (c : GlobOpts) (α : Type) where
  rho : α
  Kinf : Mat α c.NINPUTS c.NSTATES
  Pinf : Mat α c.NSTATES c.NSTATES
  Quu_inv : Mat α c.NINPUTS c.NINPUTS
  AmBKt : Mat α c.NSTATES c.NSTATES
  coeff_d2p : Mat α c.NSTATES c.NINPUTS

/-- The fields of `TinySettings`. -/
structure TinySettings (α : Type) where
  abs_pri_tol : α
  abs_dua_tol : α
  max_iter : Int
  check_termination : Int
  en_input_bound : Int
  en_state_bound : Int

/-- The fields of `TinyWorkspace`. -/
structure TinyWorkspace (c : GlobOpts) (α : Type) where
  Adyn : Mat α c.NSTATES c.NSTATES
  Bdyn : Mat α c.NSTATES c.NINPUTS
  Q : Vec α c.NSTATES
  Qf : Vec α c.NSTATES
  R : Vec α c.NINPUTS
  u_min : Mat α c.NINPUTS (c.NHORIZON - 1)
  u_max : Mat α c.NINPUTS (c.NHORIZON - 1)
  x_min : Mat α c.NSTATES c.NHORIZON
  x_max : Mat α c.NSTATES c.NHORIZON
  Xref : Mat α c.NSTATES c.NHORIZON
  Uref : Mat α c.NINPUTS (c.NHORIZON - 1)
  x : Mat α c.NSTATES c.NHORIZON
  q : Mat α c.NSTATES c.NHORIZON
  p : Mat α c.NSTATES c.NHORIZON
  v : Mat α c.NSTATES c.NHORIZON
  vnew : Mat α c.NSTATES c.NHORIZON
  g : Mat α c.NSTATES c.NHORIZON
  u : Mat α c.NINPUTS (c.NHORIZON - 1)
  r : Mat α c.NINPUTS (c.NHORIZON - 1)
  d : Mat α c.NINPUTS (c.NHORIZON - 1)
  z : Mat α c.NINPUTS (c.NHORIZON - 1)
  znew : Mat α c.NINPUTS (c.NHORIZON - 1)
  y : Mat α c.NINPUTS (c.NHORIZON - 1)
  primal_residual_state : α
  primal_residual_input : α
  dual_residual_state : α
  dual_residual_input : α
  status : Int
  iter : Int

/-- The solver aggregate `{&settings, &cache, &work}`; the three pointed-to objects are held
by value. -/
structure TinySolver (c : GlobOpts) (α : Type) where
  settings : TinySettings α
  cache : TinyCache c α
  work : TinyWorkspace c α

/-- One item written to standard output. -/
inductive Printed (α : Type) where
  | value (label : String) (v : α)
  | size (label : String) (n : Nat)
  | line (text : String)

/-- What an entry point without a buffer argument leaves behind. -/
structure Effect (c : GlobOpts) (α : Type) where
  solver : TinySolver c α
  stdout : List (Printed α)

/-- What an entry point with a buffer argument leaves behind. -/
structure BufEffect (c : GlobOpts) (α : Type) where
  solver : TinySolver c α
  buffer : Buffer α
  stdout : List (Printed α)

/-! ## Eigen primitives used by the wrapper -/

/-- Column index 0 of a matrix with `NHORIZON` columns. -/
def col0 (c : GlobOpts) : Fin c.NHORIZON := ⟨0, c.horizon_pos⟩

/-- The assignment `M(i, j) = v`. -/
def setCoeff {α : Type} {r c : Nat} (M : Mat α r c) (i : Fin r) (j : Fin c) (v : α) :
    Mat α r c :=
  fun a b => if a = i ∧ b = j then v else M a b

/-- The store `p[k] = v`. -/
def writeBuf {α : Type} (buf : Buffer α) (k : Nat) (v : α) : Buffer α :=
  fun n => if n = k then v else buf n

/-- Offset of coefficient `(i, j)` in the storage of an `r × c` matrix. -/
def coeffIndex (o : StorageOrder) (r c : Nat) (i : Fin r) (j : Fin c) : Nat :=
  match o with
  | StorageOrder.ColMajor => i.val + j.val * r
  | StorageOrder.RowMajor => i.val * c + j.val

/-- The assignment `Eigen::Map<T>(p, rows, cols) = M` for a matrix type `T` of storage
order `o`: every coefficient of `M` is stored at its offset behind `p`. -/
def mapAssign {α : Type} (o : StorageOrder) {r c : Nat} (buf : Buffer α) (M : Mat α r c) :
    Buffer α :=
  (List.finRange c).foldl
    (fun b j => (List.finRange r).foldl
      (fun b2 i => writeBuf b2 (coeffIndex o r c i j) (M i j)) b)
    buf

/-- `T::Zero()`. -/
def Mat.Zero {α : Type} [Zero α] (r c : Nat) : Mat α r c := fun _ _ => 0

/-! ## The entry points of `tiny_wrapper.cpp` -/

section Wrapper

variable {c : GlobOpts} {α : Type}

/-- The entry point `set_x0(float *x0, int verbose)`. -/
def set_x0 (s : TinySolver c α) (x0 : Buffer α) (verbose : Int) : BufEffect c α :=
  let x1 := (List.finRange c.NSTATES).foldl
    (fun x i => setCoeff x i (col0 c) (x0 i.val)) s.work.x
  let s1 : TinySolver c α := { s with work := { s.work with x := x1 } }
  { solver := s1
    buffer := x0
    stdout :=
      if verbose ≠ 0 then
        (List.finRange c.NSTATES).map
          (fun i => Printed.value "set_x0 result:  " (s1.work.x i (col0 c)))
      else [] }

/-- The entry point `set_xref(float *xref, int verbose)`. -/
def set_xref (s : TinySolver c α) (xref : Buffer α) (verbose : Int) : BufEffect c α :=
  let X1 := (List.finRange c.NSTATES).foldl
    (fun X i => (List.finRange c.NHORIZON).foldl
      (fun X2 j => setCoeff X2 i j (xref i.val)) X)
    s.work.Xref
  let s1 : TinySolver c α := { s with work := { s.work with Xref := X1 } }
  { solver := s1
    buffer := xref
    stdout :=
      if verbose ≠ 0 then
        (List.finRange c.NSTATES).flatMap
          (fun i => (List.finRange c.NHORIZON).map
            (fun j => Printed.value "set_xref result:  " (s1.work.Xref i j)))
      else [] }

/-- The entry point `reset_dual_variables(int verbose)`. -/
def reset_dual_variables [Zero α] (s : TinySolver c α) (verbose : Int) : Effect c α :=
  let w1 : TinyWorkspace c α := { s.work with y := Mat.Zero c.NINPUTS (c.NHORIZON - 1) }
  let w2 : TinyWorkspace c α := { w1 with g := Mat.Zero c.NSTATES c.NHORIZON }
  { solver := { s with work := w2 }
    stdout := if verbose ≠ 0 then [Printed.line "reset duals finished"] else [] }

/-- The entry point `call_tiny_solve(int verbose)`; the value `tiny_solve` returns is
dropped. -/
def call_tiny_solve (tiny_solve : TinySolver c α → TinySolver c α) (s : TinySolver c α)
    (verbose : Int) : Effect c α :=
  { solver := tiny_solve s
    stdout := if verbose ≠ 0 then [Printed.line "tiny solve finished"] else [] }

/-- The entry point `get_x(float *x_soln, int verbose)`. -/
def get_x (s : TinySolver c α) (x_soln : Buffer α) (verbose : Int) : BufEffect c α :=
  let out := mapAssign c.orderNxNh x_soln s.work.x
  { solver := s
    buffer := out
    stdout :=
      if verbose ≠ 0 then
        (List.range c.NHORIZON).map (fun i => Printed.value "x_soln:  " (out i))
      else [] }

/-- The entry point `get_u(float *u_soln, int verbose)`. -/
def get_u (s : TinySolver c α) (u_soln : Buffer α) (verbose : Int) : BufEffect c α :=
  let out := mapAssign c.orderNuNhm1 u_soln s.work.u
  { solver := s
    buffer := out
    stdout :=
      if verbose ≠ 0 then
        (List.range (c.NHORIZON - 1)).map (fun i => Printed.value "u_soln:  " (out i))
      else [] }

/-- The entry point `edit_x(float *x, int verbose)`. -/
def edit_x (s : TinySolver c α) (x : Buffer α) (verbose : Int) : BufEffect c α :=
  { solver := s
    buffer := x
    stdout :=
      if verbose ≠ 0 then
        [Printed.size "num rows:  " c.NSTATES, Printed.size "num cols:  " c.NHORIZON]
      else [] }

end Wrapper

/-! ## The control loop of `example_quadrotor_hovering.cpp` -/

/-- The numeric tables of `problem_data/quadrotor_20hz_params.hpp`, flat arrays in row-major
order. -/
structure ProblemData (α : Type) where
  rho_value : α
  Kinf_data : Buffer α
  Pinf_data : Buffer α
  Quu_inv_data : Buffer α
  AmBKt_data : Buffer α
  coeff_d2p_data : Buffer α
  Adyn_data : Buffer α
  Bdyn_data : Buffer α
  Q_data : Buffer α
  Qf_data : Buffer α
  R_data : Buffer α

/-- The arithmetic the example asks of `tinytype` and of Eigen: the value a numeric literal
converts to, the matrix-vector product, vector sum and difference, and the Euclidean norm.
They are parameters, so no rounding behaviour or summation order is fixed. -/
structure TinyArith (α : Type) where
  lit : ℚ → α
  mulVec : {r c : Nat} → Mat α r c → Vec α c → Vec α r
  addVec : {r : Nat} → Vec α r → Vec α r → Vec α r
  subVec : {r : Nat} → Vec α r → Vec α r → Vec α r
  norm : {r : Nat} → Vec α r → α

/-- Configuration of the example: 12 states, 4 inputs, and a horizon of at least 2 (the loop
reads `Xref.col(1)` and `u.col(0)`). -/
def exampleOpts (NHORIZON : Nat) (h : 2 ≤ NHORIZON) (o1 o2 : StorageOrder) : GlobOpts :=
  { NSTATES := 12
    NINPUTS := 4
    NHORIZON := NHORIZON
    horizon_pos := by omega
    orderNxNh := o1
    orderNuNhm1 := o2 }

/-- `Eigen::Map<Matrix<tinytype, r, c, Eigen::RowMajor>>(data)`. -/
def mapRowMajor {α : Type} (r c : Nat) (data : Buffer α) : Mat α r c :=
  fun i j => data (i.val * c + j.val)

/-- `Eigen::Map<tiny_VectorNx>(data)`. -/
def mapVector {α : Type} (r : Nat) (data : Buffer α) : Vec α r :=
  fun i => data i.val

/-- `T::Constant(v)`. -/
def Mat.Constant {α : Type} (r c : Nat) (v : α) : Mat α r c := fun _ _ => v

/-- `M.col(j)`. -/
def Mat.col {α : Type} {r c : Nat} (M : Mat α r c) (j : Fin c) : Vec α r := fun i => M i j

/-- The assignment `M.col(j) = v`. -/
def Mat.setCol {α : Type} {r c : Nat} (M : Mat α r c) (j : Fin c) (v : Vec α r) : Mat α r c :=
  fun a b => if b = j then v a else M a b

/-- `v.replicate<1, c>()`. -/
def Vec.replicate {α : Type} {r : Nat} (v : Vec α r) (c : Nat) : Mat α r c := fun i _ => v i

section Example

variable {α : Type} [Zero α]

/-- The vector `Xref_origin << 0, 0, 2, 0, 0, 0, 0, 0, 0, 0, 0, 0`. -/
def Xref_origin (A : TinyArith α) : Vec α 12 :=
  fun i => A.lit (![0, 0, 2, 0, 0, 0, 0, 0, 0, 0, 0, 0] i)

/-- The vector `x0 << 0, 1, 0, 0.2, 0, 0, 0.1, 0, 0, 0, 0, 0`. -/
def initial_x0 (A : TinyArith α) : Vec α 12 :=
  fun i => A.lit (![0, 1, 0, 0.2, 0, 0, 0.1, 0, 0, 0, 0, 0] i)

/-- The solver as `main` has set it up when the loop is entered (lines 29 to 82). -/
def main_setup (N : Nat) (h : 2 ≤ N) (o1 o2 : StorageOrder) (pd : ProblemData α)
    (A : TinyArith α) : TinySolver (exampleOpts N h o1 o2) α :=
  let cache : TinyCache (exampleOpts N h o1 o2) α :=
    { rho := pd.rho_value
      Kinf := mapRowMajor 4 12 pd.Kinf_data
      Pinf := mapRowMajor 12 12 pd.Pinf_data
      Quu_inv := mapRowMajor 4 4 pd.Quu_inv_data
      AmBKt := mapRowMajor 12 12 pd.AmBKt_data
      coeff_d2p := mapRowMajor 12 4 pd.coeff_d2p_data }
  let work : TinyWorkspace (exampleOpts N h o1 o2) α :=
    { Adyn := mapRowMajor 12 12 pd.Adyn_data
      Bdyn := mapRowMajor 12 4 pd.Bdyn_data
      Q := mapVector 12 pd.Q_data
      Qf := mapVector 12 pd.Qf_data
      R := mapVector 4 pd.R_data
      u_min := Mat.Constant 4 (N - 1) (A.lit (-0.5))
      u_max := Mat.Constant 4 (N - 1) (A.lit 0.5)
      x_min := Mat.Constant 12 N (A.lit (-5))
      x_max := Mat.Constant 12 N (A.lit 5)
      Xref := Mat.Zero 12 N
      Uref := Mat.Zero 4 (N - 1)
      x := Mat.Zero 12 N
      q := Mat.Zero 12 N
      p := Mat.Zero 12 N
      v := Mat.Zero 12 N
      vnew := Mat.Zero 12 N
      g := Mat.Zero 12 N
      u := Mat.Zero 4 (N - 1)
      r := Mat.Zero 4 (N - 1)
      d := Mat.Zero 4 (N - 1)
      z := Mat.Zero 4 (N - 1)
      znew := Mat.Zero 4 (N - 1)
      y := Mat.Zero 4 (N - 1)
      primal_residual_state := A.lit 0
      primal_residual_input := A.lit 0
      dual_residual_state := A.lit 0
      dual_residual_input := A.lit 0
      status := 0
      iter := 0 }
  let settings : TinySettings α :=
    { abs_pri_tol := A.lit 0.001
      abs_dua_tol := A.lit 0.001
      max_iter := 100
      check_termination := 1
      en_input_bound := 1
      en_state_bound := 1 }
  { settings := settings
    cache := cache
    work := { work with Xref := Vec.replicate (Xref_origin A) N } }

/-- The variables that live across iterations of the loop: the solver and the simulated
state `x0`. -/
structure SimState (c : GlobOpts) (α : Type) where
  solver : TinySolver c α
  x0 : Vec α c.NSTATES

/-- One pass through the loop body, with everything it computes. -/
structure Cycle (c : GlobOpts) (α : Type) where
  k : Nat
  x0 : Vec α c.NSTATES
  tracking_error : α
  handed : TinySolver c α
  solved : TinySolver c α
  x1 : Vec α c.NSTATES

/-- The column `work.Xref.col(1)` the example reads for the tracking error. -/
def Xref_col1 (N : Nat) (h : 2 ≤ N) (o1 o2 : StorageOrder)
    (work : TinyWorkspace (exampleOpts N h o1 o2) α) : Vec α 12 :=
  Mat.col work.Xref ⟨1, by simp [exampleOpts]; omega⟩

/-- The column `work.u.col(0)`, the first input of the trajectory. -/
def u_col0 (N : Nat) (h : 2 ≤ N) (o1 o2 : StorageOrder)
    (work : TinyWorkspace (exampleOpts N h o1 o2) α) : Vec α 4 :=
  Mat.col work.u ⟨0, by simp [exampleOpts]; omega⟩

/-- The loop body (lines 89 to 108) at step `k`: `tracking_error` is the value printed,
`handed` the solver passed to `tiny_solve`, `solved` the solver it leaves, and `x1` the next
simulated state. -/
def loop_body (N : Nat) (h : 2 ≤ N) (o1 o2 : StorageOrder) (A : TinyArith α)
    (tiny_solve : TinySolver (exampleOpts N h o1 o2) α → TinySolver (exampleOpts N h o1 o2) α)
    (k : Nat) (st : SimState (exampleOpts N h o1 o2) α) : Cycle (exampleOpts N h o1 o2) α :=
  let work := st.solver.work
  let err := A.norm (A.subVec st.x0 (Xref_col1 N h o1 o2 work))
  let w1 : TinyWorkspace (exampleOpts N h o1 o2) α :=
    { work with x := Mat.setCol work.x (col0 (exampleOpts N h o1 o2)) st.x0 }
  let w2 : TinyWorkspace (exampleOpts N h o1 o2) α := { w1 with y := Mat.Zero 4 (N - 1) }
  let w3 : TinyWorkspace (exampleOpts N h o1 o2) α := { w2 with g := Mat.Zero 12 N }
  let handed : TinySolver (exampleOpts N h o1 o2) α := { st.solver with work := w3 }
  let solved := tiny_solve handed
  let x1 := A.addVec (A.mulVec solved.work.Adyn st.x0)
    (A.mulVec solved.work.Bdyn (u_col0 N h o1 o2 solved.work))
  { k := k
    x0 := st.x0
    tracking_error := err
    handed := handed
    solved := solved
    x1 := x1 }

/-- The loop `for (int k = ...; k < ...; ++k)` run for `n` more iterations from step `k`. -/
def loop_from (N : Nat) (h : 2 ≤ N) (o1 o2 : StorageOrder) (A : TinyArith α)
    (tiny_solve : TinySolver (exampleOpts N h o1 o2) α → TinySolver (exampleOpts N h o1 o2) α) :
    Nat → Nat → SimState (exampleOpts N h o1 o2) α → List (Cycle (exampleOpts N h o1 o2) α)
  | 0, _, _ => []
  | n + 1, k, st =>
    let cy := loop_body N h o1 o2 A tiny_solve k st
    cy :: loop_from N h o1 o2 A tiny_solve n (k + 1) { solver := cy.solved, x0 := cy.x1 }

/-- The function `main` of the example: the 70 cycles it runs, in order. -/
def main (N : Nat) (h : 2 ≤ N) (o1 o2 : StorageOrder) (pd : ProblemData α) (A : TinyArith α)
    (tiny_solve : TinySolver (exampleOpts N h o1 o2) α → TinySolver (exampleOpts N h o1 o2) α) :
    List (Cycle (exampleOpts N h o1 o2) α) :=
  loop_from N h o1 o2 A tiny_solve 70 0
    { solver := main_setup N h o1 o2 pd A, x0 := initial_x0 A }

end Example

/-! ## Concrete inputs -/

/-- Exact rational arithmetic as an instance of `TinyArith`; the rationals have no square
roots, so `norm` is the squared norm here. -/
def ratArith : TinyArith ℚ :=
  { lit := fun q => q
    mulVec := fun M v i => (List.finRange _).foldl (fun acc k => acc + M i k * v k) 0
    addVec := fun a b i => a i + b i
    subVec := fun a b i => a i - b i
    norm := fun a => (List.finRange _).foldl (fun acc k => acc + a k * a k) 0 }

/-- Problem tables for a concrete run: `Adyn` is the identity matrix (the diagonal of a
12 by 12 row-major table sits at the offsets divisible by 13), every entry of `Bdyn` is 1,
and the other tables are zero. -/
def demoData : ProblemData ℚ :=
  { rho_value := 0, Kinf_data := fun _ => 0, Pinf_data := fun _ => 0,
    Quu_inv_data := fun _ => 0, AmBKt_data := fun _ => 0, coeff_d2p_data := fun _ => 0,
    Adyn_data := fun k => if k % 13 = 0 then 1 else 0,
    Bdyn_data := fun _ => 1, Q_data := fun _ => 0,
    Qf_data := fun _ => 0, R_data := fun _ => 0 }

/-- A stand-in for `tiny_solve` in a concrete run: it leaves the input trajectory
`u(i, j) = i + 1 + 100 j` and the reference input `Uref(i, j) = 1000`, and touches nothing
else. -/
def demoSolve {c : GlobOpts} (s : TinySolver c ℚ) : TinySolver c ℚ :=
  { s with work := { s.work with
      u := fun i j => (i.val : ℚ) + 1 + 100 * (j.val : ℚ)
      Uref := fun _ _ => 1000 } }

/-! ## Loop lemmas -/

/-- Writing one column, row by row: the rows visited hold the new values. -/
theorem foldl_setCoeff_column {α : Type} {r c : Nat} (f : Fin r → α) (j : Fin c)
    (l : List (Fin r)) (M : Mat α r c) (a : Fin r) (b : Fin c) :
    (l.foldl (fun x i => setCoeff x i j (f i)) M) a b
      = if a ∈ l ∧ b = j then f a else M a b := by
  induction l generalizing M with
  | nil => simp
  | cons i l ih =>
    rw [List.foldl_cons, ih]
    by_cases hb : b = j
    · by_cases hal : a ∈ l
      · simp [hal, hb]
      · by_cases hai : a = i
        · subst hai; simp [hal, hb, setCoeff]
        · simp [hal, hb, hai, setCoeff]
    · simp [hb, setCoeff]

/-- Writing one row, column by column, with a single value. -/
theorem foldl_setCoeff_row {α : Type} {r c : Nat} (v : α) (i : Fin r)
    (l : List (Fin c)) (M : Mat α r c) (a : Fin r) (b : Fin c) :
    (l.foldl (fun X j => setCoeff X i j v) M) a b
      = if a = i ∧ b ∈ l then v else M a b := by
  induction l generalizing M with
  | nil => simp
  | cons j l ih =>
    rw [List.foldl_cons, ih]
    by_cases ha : a = i
    · by_cases hbl : b ∈ l
      · simp [ha, hbl]
      · by_cases hbj : b = j
        · subst hbj; simp [ha, hbl, setCoeff]
        · simp [ha, hbl, hbj, setCoeff]
    · simp [ha, setCoeff]

/-- The doubly nested broadcast loop of `set_xref`. -/
theorem foldl_setCoeff_broadcast {α : Type} {r c : Nat} (f : Fin r → α)
    (li : List (Fin r)) (lj : List (Fin c)) (M : Mat α r c) (a : Fin r) (b : Fin c) :
    (li.foldl (fun X i => lj.foldl (fun X2 j => setCoeff X2 i j (f i)) X) M) a b
      = if a ∈ li ∧ b ∈ lj then f a else M a b := by
  induction li generalizing M with
  | nil => simp
  | cons i li ih =>
    rw [List.foldl_cons, ih, foldl_setCoeff_row]
    by_cases hbl : b ∈ lj
    · by_cases hal : a ∈ li
      · simp [hal, hbl]
      · by_cases hai : a = i
        · subst hai; simp [hal, hbl]
        · simp [hal, hbl, hai]
    · simp [hbl]

/-- Two coefficients of a matrix never share a storage offset. -/
theorem coeffIndex_injective (o : StorageOrder) (r c : Nat) (i i2 : Fin r) (j j2 : Fin c)
    (h : coeffIndex o r c i j = coeffIndex o r c i2 j2) : i = i2 ∧ j = j2 := by
  have key : ∀ (m a b a2 b2 : Nat), a < m → a2 < m → a + b * m = a2 + b2 * m →
      a = a2 ∧ b = b2 := by
    intro m a b a2 b2 ha ha2 hab
    have hb : b = b2 := by
      rcases Nat.lt_trichotomy b b2 with hlt | heq | hgt
      · have h1 : (b + 1) * m ≤ b2 * m := Nat.mul_le_mul_right m hlt
        rw [Nat.add_mul, Nat.one_mul] at h1
        omega
      · exact heq
      · have h1 : (b2 + 1) * m ≤ b * m := Nat.mul_le_mul_right m hgt
        rw [Nat.add_mul, Nat.one_mul] at h1
        omega
    subst hb
    exact ⟨by omega, rfl⟩
  cases o with
  | ColMajor =>
    simp only [coeffIndex] at h
    obtain ⟨h1, h2⟩ := key r i.val j.val i2.val j2.val i.isLt i2.isLt h
    exact ⟨Fin.ext h1, Fin.ext h2⟩
  | RowMajor =>
    simp only [coeffIndex] at h
    have h3 : j.val + i.val * c = j2.val + i2.val * c := by omega
    obtain ⟨h1, h2⟩ := key c j.val i.val j2.val i2.val j.isLt j2.isLt h3
    exact ⟨Fin.ext h2, Fin.ext h1⟩

/-- A run of stores leaves an offset alone when no store targets it. -/
theorem foldl_writeBuf_miss {α ι : Type} (key : ι → Nat) (val : ι → α) (l : List ι)
    (buf : Buffer α) (k : Nat) (hno : ∀ w ∈ l, key w ≠ k) :
    (l.foldl (fun b w => writeBuf b (key w) (val w)) buf) k = buf k := by
  induction l generalizing buf with
  | nil => rfl
  | cons w l ih =>
    rw [List.foldl_cons, ih _ (fun w2 hw2 => hno w2 (List.mem_cons_of_mem _ hw2))]
    have hk : k ≠ key w := fun e => hno w (List.mem_cons_self _ _) e.symm
    simp [writeBuf, hk]

/-- A run of stores leaves at an offset the value stored there, when every store to that
offset carries the same value. -/
theorem foldl_writeBuf_hit {α ι : Type} (key : ι → Nat) (val : ι → α) (l : List ι)
    (buf : Buffer α) (k : Nat) (v : α) (hfun : ∀ w ∈ l, key w = k → val w = v)
    (hex : ∃ w ∈ l, key w = k) :
    (l.foldl (fun b w => writeBuf b (key w) (val w)) buf) k = v := by
  induction l generalizing buf with
  | nil => obtain ⟨w, hw, _⟩ := hex; cases hw
  | cons w l ih =>
    rw [List.foldl_cons]
    by_cases hl : ∃ w2 ∈ l, key w2 = k
    · exact ih _ (fun w2 hw2 => hfun w2 (List.mem_cons_of_mem _ hw2)) hl
    · have hno : ∀ w2 ∈ l, key w2 ≠ k := fun w2 hw2 e => hl ⟨w2, hw2, e⟩
      rw [foldl_writeBuf_miss key val l _ k hno]
      obtain ⟨w3, hw3, hk3⟩ := hex
      rcases List.mem_cons.mp hw3 with e | hin
      · subst e
        simp [writeBuf, hk3, hfun w3 (List.mem_cons_self _ _) hk3]
      · exact absurd ⟨w3, hin, hk3⟩ hl

/-- The nested store loops of `mapAssign` are one run of stores over all index pairs. -/
theorem mapAssign_eq_foldl {α : Type} (o : StorageOrder) {r c : Nat} (buf : Buffer α)
    (M : Mat α r c) :
    mapAssign o buf M
      = ((List.finRange c).flatMap (fun j => (List.finRange r).map (fun i => (i, j)))).foldl
          (fun b w => writeBuf b (coeffIndex o r c w.1 w.2) (M w.1 w.2)) buf := by
  unfold mapAssign
  generalize List.finRange c = lj
  induction lj generalizing buf with
  | nil => rfl
  | cons j lj ih =>
    rw [List.foldl_cons, ih, List.flatMap_cons, List.foldl_append, List.foldl_map]

/-- After `Eigen::Map<T>(p, rows, cols) = M` the buffer holds `M(i, j)` at the offset of
coefficient `(i, j)`. -/
theorem mapAssign_coeff {α : Type} (o : StorageOrder) {r c : Nat} (buf : Buffer α)
    (M : Mat α r c) (i : Fin r) (j : Fin c) :
    mapAssign o buf M (coeffIndex o r c i j) = M i j := by
  rw [mapAssign_eq_foldl]
  apply foldl_writeBuf_hit (fun w : Fin r × Fin c => coeffIndex o r c w.1 w.2)
    (fun w => M w.1 w.2)
  · intro w _ hw
    obtain ⟨h1, h2⟩ := coeffIndex_injective o r c w.1 i w.2 j hw
    rw [h1, h2]
  · refine ⟨(i, j), ?_, rfl⟩
    simp [List.mem_flatMap, List.mem_finRange]

/-! ## What each entry point leaves in the solver -/

section WrapperLemmas

variable {c : GlobOpts} {α : Type}

/-- The matrix `x` after `set_x0`: column 0 is the buffer, the other columns are kept. -/
theorem set_x0_work_x (s : TinySolver c α) (b : Buffer α) (verbose : Int) :
    (set_x0 s b verbose).solver.work.x
      = fun i j => if j = col0 c then b i.val else s.work.x i j := by
  funext i j
  simp only [set_x0]
  rw [foldl_setCoeff_column (fun i : Fin c.NSTATES => b i.val)]
  simp [List.mem_finRange]

/-- The solver after `set_x0`: only the field `x` of the workspace is replaced. -/
theorem set_x0_solver (s : TinySolver c α) (b : Buffer α) (verbose : Int) :
    (set_x0 s b verbose).solver
      = { s with work := { s.work with
            x := fun i j => if j = col0 c then b i.val else s.work.x i j } } := by
  rw [← set_x0_work_x s b verbose]
  rfl

/-- The matrix `Xref` after `set_xref`: every column is the buffer. -/
theorem set_xref_work_Xref (s : TinySolver c α) (r : Buffer α) (verbose : Int) :
    (set_xref s r verbose).solver.work.Xref = fun i _ => r i.val := by
  funext i j
  simp only [set_xref]
  rw [foldl_setCoeff_broadcast (fun i : Fin c.NSTATES => r i.val)]
  simp [List.mem_finRange]

/-- The solver after `set_xref`: only the field `Xref` of the workspace is replaced. -/
theorem set_xref_solver (s : TinySolver c α) (r : Buffer α) (verbose : Int) :
    (set_xref s r verbose).solver
      = { s with work := { s.work with Xref := fun i _ => r i.val } } := by
  rw [← set_xref_work_Xref s r verbose]
  rfl

/-- The solver after `reset_dual_variables`: only `y` and `g` are replaced. -/
theorem reset_dual_variables_solver [Zero α] (s : TinySolver c α) (verbose : Int) :
    (reset_dual_variables s verbose).solver
      = { s with work := { s.work with
            y := fun _ _ => 0
            g := fun _ _ => 0 } } :=
  rfl

/-- The buffer after `get_x`. -/
theorem get_x_buffer (s : TinySolver c α) (out : Buffer α) (verbose : Int) :
    (get_x s out verbose).buffer = mapAssign c.orderNxNh out s.work.x :=
  rfl

end WrapperLemmas

/-! ## Contracts of the entry points -/

section Contracts

variable {c : GlobOpts} {α : Type}

/-- C1: after `set_x0(b, verbose)` column 0 of `x` holds the buffer, `x(i, 0) = b[i]` for
every row `i` below `NSTATES`. -/
theorem set_x0_column_zero (s : TinySolver c α) (b : Buffer α) (verbose : Int)
    (i : Fin c.NSTATES) :
    (set_x0 s b verbose).solver.work.x i (col0 c) = b i.val := by
  rw [set_x0_work_x]
  simp

/-- C2: after `set_xref(r, verbose)` every column of `Xref` is the buffer,
`Xref(i, j) = r[i]` for every row `i` below `NSTATES` and column `j` below `NHORIZON`; so any
two columns of `Xref` agree. -/
theorem set_xref_broadcast (s : TinySolver c α) (r : Buffer α) (verbose : Int) :
    (∀ (i : Fin c.NSTATES) (j : Fin c.NHORIZON),
        (set_xref s r verbose).solver.work.Xref i j = r i.val) ∧
    (∀ (i : Fin c.NSTATES) (j j2 : Fin c.NHORIZON),
        (set_xref s r verbose).solver.work.Xref i j
          = (set_xref s r verbose).solver.work.Xref i j2) := by
  rw [set_xref_work_Xref]
  exact ⟨fun _ _ => rfl, fun _ _ _ => rfl⟩

/-- C3: after `reset_dual_variables(verbose)` every entry of `y` and every entry of `g` is
zero, whatever the workspace held before. -/
theorem reset_dual_variables_zeroes [Zero α] (s : TinySolver c α) (verbose : Int) :
    (∀ (i : Fin c.NINPUTS) (j : Fin (c.NHORIZON - 1)),
        (reset_dual_variables s verbose).solver.work.y i j = 0) ∧
    (∀ (i : Fin c.NSTATES) (j : Fin c.NHORIZON),
        (reset_dual_variables s verbose).solver.work.g i j = 0) :=
  ⟨fun _ _ => rfl, fun _ _ => rfl⟩

/-- C6: `set_x0(b)` followed at once by `get_x(out)` exports a trajectory whose column 0 is
the buffer `b` and whose other columns are the columns `x` had before `set_x0`; entry
`(i, j)` of the exported trajectory is read at the offset `get_x` stores it at. -/
theorem set_x0_get_x_round_trip (s : TinySolver c α) (b out : Buffer α) (v1 v2 : Int)
    (i : Fin c.NSTATES) (j : Fin c.NHORIZON) :
    (get_x (set_x0 s b v1).solver out v2).buffer
        (coeffIndex c.orderNxNh c.NSTATES c.NHORIZON i j)
      = if j = col0 c then b i.val else s.work.x i j := by
  rw [get_x_buffer, mapAssign_coeff, set_x0_work_x]

/-- C7: the `verbose` flag is a side channel. For each of the seven entry points, two calls
from the same solver with the same buffer and any two values of `verbose` leave the same
solver (workspace, status, cache and settings) and the same buffer contents; and with
`verbose = 0` nothing is printed. -/
theorem verbose_is_side_channel [Zero α] (tiny_solve : TinySolver c α → TinySolver c α)
    (s : TinySolver c α) (buf : Buffer α) (v1 v2 : Int) :
    ((set_x0 s buf v1).solver = (set_x0 s buf v2).solver ∧
      (set_x0 s buf v1).buffer = (set_x0 s buf v2).buffer) ∧
    ((set_xref s buf v1).solver = (set_xref s buf v2).solver ∧
      (set_xref s buf v1).buffer = (set_xref s buf v2).buffer) ∧
    (reset_dual_variables s v1).solver = (reset_dual_variables s v2).solver ∧
    (call_tiny_solve tiny_solve s v1).solver = (call_tiny_solve tiny_solve s v2).solver ∧
    ((get_x s buf v1).solver = (get_x s buf v2).solver ∧
      (get_x s buf v1).buffer = (get_x s buf v2).buffer) ∧
    ((get_u s buf v1).solver = (get_u s buf v2).solver ∧
      (get_u s buf v1).buffer = (get_u s buf v2).buffer) ∧
    ((edit_x s buf v1).solver = (edit_x s buf v2).solver ∧
      (edit_x s buf v1).buffer = (edit_x s buf v2).buffer) ∧
    ((set_x0 s buf 0).stdout = [] ∧ (set_xref s buf 0).stdout = [] ∧
      (reset_dual_variables s 0).stdout = [] ∧
      (call_tiny_solve tiny_solve s 0).stdout = [] ∧ (get_x s buf 0).stdout = [] ∧
      (get_u s buf 0).stdout = [] ∧ (edit_x s buf 0).stdout = []) :=
  ⟨⟨rfl, rfl⟩, ⟨rfl, rfl⟩, rfl, rfl, ⟨rfl, rfl⟩, ⟨rfl, rfl⟩, ⟨rfl, rfl⟩,
    ⟨rfl, rfl, rfl, rfl, rfl, rfl, rfl⟩⟩

/-- C10: frame of the boundary adapter. `set_x0` replaces column 0 of `x` and nothing else,
`set_xref` replaces `Xref` and nothing else, `reset_dual_variables` replaces `y` and `g` and
nothing else, and `get_x`, `get_u`, `edit_x` return the solver they were given; cache,
settings, `iter` and `status` are the same after each of them; and `set_x0`, `set_xref`,
`reset_dual_variables` commute pairwise. -/
theorem boundary_frame [Zero α] (s : TinySolver c α) (b r out : Buffer α) (v1 v2 : Int) :
    (set_x0 s b v1).solver
      = { s with work := { s.work with
            x := fun i j => if j = col0 c then b i.val else s.work.x i j } } ∧
    (set_xref s r v1).solver
      = { s with work := { s.work with Xref := fun i _ => r i.val } } ∧
    (reset_dual_variables s v1).solver
      = { s with work := { s.work with
            y := fun _ _ => 0
            g := fun _ _ => 0 } } ∧
    (get_x s out v1).solver = s ∧ (get_u s out v1).solver = s ∧ (edit_x s out v1).solver = s ∧
    ((set_x0 s b v1).solver.cache = s.cache ∧ (set_x0 s b v1).solver.settings = s.settings ∧
      (set_x0 s b v1).solver.work.iter = s.work.iter ∧
      (set_x0 s b v1).solver.work.status = s.work.status) ∧
    ((set_xref s r v1).solver.cache = s.cache ∧
      (set_xref s r v1).solver.settings = s.settings ∧
      (set_xref s r v1).solver.work.iter = s.work.iter ∧
      (set_xref s r v1).solver.work.status = s.work.status) ∧
    ((reset_dual_variables s v1).solver.cache = s.cache ∧
      (reset_dual_variables s v1).solver.settings = s.settings ∧
      (reset_dual_variables s v1).solver.work.iter = s.work.iter ∧
      (reset_dual_variables s v1).solver.work.status = s.work.status) ∧
    (set_xref (set_x0 s b v1).solver r v2).solver
      = (set_x0 (set_xref s r v2).solver b v1).solver ∧
    (reset_dual_variables (set_x0 s b v1).solver v2).solver
      = (set_x0 (reset_dual_variables s v2).solver b v1).solver ∧
    (reset_dual_variables (set_xref s r v1).solver v2).solver
      = (set_xref (reset_dual_variables s v2).solver r v1).solver := by
  refine ⟨set_x0_solver s b v1, set_xref_solver s r v1, rfl, rfl, rfl, rfl,
    ⟨rfl, rfl, rfl, rfl⟩, ⟨rfl, rfl, rfl, rfl⟩, ⟨rfl, rfl, rfl, rfl⟩, ?_, ?_, ?_⟩
  · rw [set_xref_solver, set_x0_solver, set_x0_solver, set_xref_solver]
  · rw [set_x0_solver, set_x0_solver, reset_dual_variables_solver,
      reset_dual_variables_solver]
  · rw [set_xref_solver, set_xref_solver, reset_dual_variables_solver,
      reset_dual_variables_solver]

end Contracts

/-! ## The closed loop of the hovering example -/

section ClosedLoop

variable {α : Type} [Zero α]

/-- The loop runs as many cycles as it is asked to. -/
theorem loop_from_length (N : Nat) (h : 2 ≤ N) (o1 o2 : StorageOrder) (A : TinyArith α)
    (ts : TinySolver (exampleOpts N h o1 o2) α → TinySolver (exampleOpts N h o1 o2) α)
    (n k : Nat) (st : SimState (exampleOpts N h o1 o2) α) :
    (loop_from N h o1 o2 A ts n k st).length = n := by
  induction n generalizing k st with
  | zero => rfl
  | succ n ih => simp [loop_from, ih]

/-- The step numbers of the cycles count up from the first one. -/
theorem loop_from_steps (N : Nat) (h : 2 ≤ N) (o1 o2 : StorageOrder) (A : TinyArith α)
    (ts : TinySolver (exampleOpts N h o1 o2) α → TinySolver (exampleOpts N h o1 o2) α)
    (n k : Nat) (st : SimState (exampleOpts N h o1 o2) α) :
    (loop_from N h o1 o2 A ts n k st).map (fun cy => cy.k) = List.range' k n := by
  induction n generalizing k st with
  | zero => rfl
  | succ n ih => simp [loop_from, ih, List.range', loop_body]

/-- Every cycle is the loop body run on some loop state. -/
theorem loop_from_mem (N : Nat) (h : 2 ≤ N) (o1 o2 : StorageOrder) (A : TinyArith α)
    (ts : TinySolver (exampleOpts N h o1 o2) α → TinySolver (exampleOpts N h o1 o2) α)
    (n k : Nat) (st : SimState (exampleOpts N h o1 o2) α)
    (cy : Cycle (exampleOpts N h o1 o2) α) (hcy : cy ∈ loop_from N h o1 o2 A ts n k st) :
    ∃ k2 st2, cy = loop_body N h o1 o2 A ts k2 st2 := by
  induction n generalizing k st with
  | zero => cases hcy
  | succ n ih =>
    rcases List.mem_cons.mp hcy with e | hin
    · exact ⟨k, st, e⟩
    · exact ih _ _ hin

/-- The first cycle, when there is one, is the loop body run on the initial loop state. -/
theorem loop_from_head (N : Nat) (h : 2 ≤ N) (o1 o2 : StorageOrder) (A : TinyArith α)
    (ts : TinySolver (exampleOpts N h o1 o2) α → TinySolver (exampleOpts N h o1 o2) α)
    (n k : Nat) (st : SimState (exampleOpts N h o1 o2) α)
    (cy : Cycle (exampleOpts N h o1 o2) α)
    (hcy : cy ∈ (loop_from N h o1 o2 A ts n k st).head?) :
    cy = loop_body N h o1 o2 A ts k st := by
  cases n with
  | zero => cases hcy
  | succ n =>
    simp only [loop_from, List.head?_cons, Option.mem_def, Option.some.injEq] at hcy
    exact hcy.symm

/-- Each cycle starts from the simulated state the previous cycle computed, and is handed
the `Xref` the previous solve left. -/
theorem loop_from_chain (N : Nat) (h : 2 ≤ N) (o1 o2 : StorageOrder) (A : TinyArith α)
    (ts : TinySolver (exampleOpts N h o1 o2) α → TinySolver (exampleOpts N h o1 o2) α)
    (n k : Nat) (st : SimState (exampleOpts N h o1 o2) α) :
    List.Chain' (fun a b => b.x0 = a.x1 ∧ b.handed.work.Xref = a.solved.work.Xref)
      (loop_from N h o1 o2 A ts n k st) := by
  induction n generalizing k st with
  | zero => exact List.chain'_nil
  | succ n ih =>
    rw [loop_from, List.chain'_cons']
    refine ⟨fun b hb => ?_, ih _ _⟩
    rw [loop_from_head N h o1 o2 A ts n _ _ b hb]
    exact ⟨rfl, rfl⟩

/-- C9: closed-loop stepping of the hovering example, for any `tiny_solve`. The example runs
70 cycles, numbered 0 to 69. In every cycle the solver handed to `tiny_solve` has column 0 of
`x` (index 0) equal to the current simulated state and `y`, `g` entirely zero, and the next
simulated state is `Adyn * x0 + Bdyn * u.col(0)`, where `Adyn`, `Bdyn` and `u` are those of
the solver that this cycle's solve left and `u.col(0)` is column index 0 of that `u`.
Each cycle starts from the state the previous one computed and is handed the `Xref` the
previous solve left. The first cycle starts from `(0, 1, 0, 0.2, 0, 0, 0.1, 0, 0, 0, 0, 0)`
and is handed an `Xref` whose every column is `(0, 0, 2, 0, 0, 0, 0, 0, 0, 0, 0, 0)`. -/
theorem main_closed_loop (N : Nat) (h : 2 ≤ N) (o1 o2 : StorageOrder) (pd : ProblemData α)
    (A : TinyArith α)
    (ts : TinySolver (exampleOpts N h o1 o2) α → TinySolver (exampleOpts N h o1 o2) α) :
    (main N h o1 o2 pd A ts).length = 70 ∧
    (main N h o1 o2 pd A ts).map (fun cy => cy.k) = List.range 70 ∧
    (∀ cy ∈ main N h o1 o2 pd A ts,
      (∀ i, cy.handed.work.x i ⟨0, (exampleOpts N h o1 o2).horizon_pos⟩ = cy.x0 i) ∧
      (∀ i j, cy.handed.work.y i j = 0) ∧
      (∀ i j, cy.handed.work.g i j = 0) ∧
      cy.solved = ts cy.handed ∧
      cy.x1 = A.addVec (A.mulVec cy.solved.work.Adyn cy.x0)
        (A.mulVec cy.solved.work.Bdyn
          (fun i => cy.solved.work.u i ⟨0, Nat.sub_pos_of_lt h⟩))) ∧
    List.Chain' (fun a b => b.x0 = a.x1 ∧ b.handed.work.Xref = a.solved.work.Xref)
      (main N h o1 o2 pd A ts) ∧
    (∀ cy ∈ (main N h o1 o2 pd A ts).head?,
      (∀ i, cy.x0 i = A.lit (![0, 1, 0, 0.2, 0, 0, 0.1, 0, 0, 0, 0, 0] i)) ∧
      (∀ i j, cy.handed.work.Xref i j = A.lit (![0, 0, 2, 0, 0, 0, 0, 0, 0, 0, 0, 0] i))) := by
  refine ⟨loop_from_length _ _ _ _ _ _ _ _ _, ?_, ?_, loop_from_chain _ _ _ _ _ _ _ _ _, ?_⟩
  · rw [main, loop_from_steps, List.range_eq_range']
  · intro cy hcy
    obtain ⟨k2, st2, rfl⟩ := loop_from_mem _ _ _ _ _ _ _ _ _ cy hcy
    refine ⟨fun i => ?_, fun _ _ => rfl, fun _ _ => rfl, rfl, rfl⟩
    simp [loop_body, Mat.setCol, col0]
  · intro cy hcy
    rw [loop_from_head _ _ _ _ _ _ _ _ _ cy hcy]
    exact ⟨fun _ => rfl, fun _ _ => rfl⟩

/-- A horizon of 10 is long enough for the example. -/
theorem horizon_ten_ok : 2 ≤ 10 := by decide

/-- The first cycle of the concrete run: with `Adyn` the identity, `Bdyn` all ones and a
solve that leaves `u.col(0) = (1, 2, 3, 4)`, the next simulated state is `x0 + 10` in every
coordinate. -/
theorem demo_first_cycle (cy : Cycle (exampleOpts 10 horizon_ten_ok StorageOrder.ColMajor
      StorageOrder.ColMajor) ℚ)
    (hcy : cy ∈ (main 10 horizon_ten_ok StorageOrder.ColMajor StorageOrder.ColMajor demoData
      ratArith demoSolve).head?) (i : Fin 12) :
    cy.x1 i = ![0, 1, 0, 0.2, 0, 0, 0.1, 0, 0, 0, 0, 0] i + 10 := by
  rw [loop_from_head _ _ _ _ _ _ _ _ _ cy hcy]
  have e12 : List.finRange 12 = [0, 1, 2, 3, 4, 5, 6, 7, 8, 9, 10, 11] := by decide
  have e4 : List.finRange 4 = [0, 1, 2, 3] := by decide
  have hx : ∀ k : Fin 12, (![0, 1, 0, 0.2, 0, 0, 0.1, 0, 0, 0, 0, 0] : Fin 12 → ℚ) k
      = if k.val = 1 then 1 else if k.val = 3 then 0.2 else if k.val = 6 then 0.1 else 0 := by
    intro k
    fin_cases k <;> rfl
  simp only [loop_body, ratArith, u_col0, Mat.col, demoSolve, main_setup, mapRowMajor,
    demoData, initial_x0, hx]
  simp only [exampleOpts, e12, e4, List.foldl_cons, List.foldl_nil]
  fin_cases i <;> norm_num [Fin.coe_ofNat_eq_mod]

/-- The closed-loop statement at horizon 10, with exact rational arithmetic, `Adyn` the
identity, `Bdyn` all ones and a solve that leaves `u.col(0) = (1, 2, 3, 4)`; the first
cycle's next state is then `x0 + 10` in every coordinate. -/
theorem main_closed_loop_witness :
    2 ≤ 10 ∧
    ((main 10 horizon_ten_ok StorageOrder.ColMajor StorageOrder.ColMajor demoData ratArith
        demoSolve).length = 70 ∧
    (main 10 horizon_ten_ok StorageOrder.ColMajor StorageOrder.ColMajor demoData ratArith
        demoSolve).map (fun cy => cy.k) = List.range 70 ∧
    (∀ cy ∈ main 10 horizon_ten_ok StorageOrder.ColMajor StorageOrder.ColMajor demoData ratArith
        demoSolve,
      (∀ i, cy.handed.work.x i
          ⟨0, (exampleOpts 10 horizon_ten_ok StorageOrder.ColMajor
            StorageOrder.ColMajor).horizon_pos⟩
        = cy.x0 i) ∧
      (∀ i j, cy.handed.work.y i j = 0) ∧
      (∀ i j, cy.handed.work.g i j = 0) ∧
      cy.solved = demoSolve cy.handed ∧
      cy.x1 = ratArith.addVec (ratArith.mulVec cy.solved.work.Adyn cy.x0)
        (ratArith.mulVec cy.solved.work.Bdyn
          (fun i => cy.solved.work.u i ⟨0, Nat.sub_pos_of_lt horizon_ten_ok⟩))) ∧
    List.Chain' (fun a b => b.x0 = a.x1 ∧ b.handed.work.Xref = a.solved.work.Xref)
      (main 10 horizon_ten_ok StorageOrder.ColMajor StorageOrder.ColMajor demoData ratArith
        demoSolve) ∧
    (∀ cy ∈ (main 10 horizon_ten_ok StorageOrder.ColMajor StorageOrder.ColMajor demoData
        ratArith demoSolve).head?,
      (∀ i, cy.x0 i = ratArith.lit (![0, 1, 0, 0.2, 0, 0, 0.1, 0, 0, 0, 0, 0] i)) ∧
      (∀ i j, cy.handed.work.Xref i j
        = ratArith.lit (![0, 0, 2, 0, 0, 0, 0, 0, 0, 0, 0, 0] i)))) ∧
    (∀ cy ∈ (main 10 horizon_ten_ok StorageOrder.ColMajor StorageOrder.ColMajor demoData
        ratArith demoSolve).head?,
      ∀ i, cy.x1 i = ![0, 1, 0, 0.2, 0, 0, 0.1, 0, 0, 0, 0, 0] i + 10) :=
  ⟨horizon_ten_ok,
    main_closed_loop 10 horizon_ten_ok StorageOrder.ColMajor StorageOrder.ColMajor demoData
      ratArith demoSolve,
    fun cy hcy i => demo_first_cycle cy hcy i⟩

end ClosedLoop

end TinyMPC
